import Mathlib

/-!
Verification of `homeassistant/components/esphome/bluetooth/client.py`
(the ESPHome Bleak bridge client).

The Python code is a single-threaded asynchronous client.  We embed it
shallowly: the mutable fields of `ESPHomeClient` (plus the per-address
slice of the shared `ESPHomeBluetoothCache`) become a `ClientState`
record, and each method becomes a pure state-transition function.
Results of remote RPC calls (which are performed by the out-of-scope
`aioesphomeapi` client) are passed in as explicit parameters; externally
observable side effects (issuing the RPC disconnect request, invoking a
notification abort action, invoking the bleak disconnected callback,
writing the shared cache, unsubscribing from connection-state updates)
are recorded in an append-only event list.  Waits on the connection-slot
limiter (`_wait_for_free_connection_slot`) touch only the out-of-scope
`ESPHomeBluetoothDevice` collaborator and are modelled as returning
immediately (a free slot).
-/

/-- Protocol constant `DEFAULT_MTU = 23`. -/
def DEFAULT_MTU : Nat := 23

/-- Protocol constant `GATT_HEADER_SIZE = 3`. -/
def GATT_HEADER_SIZE : Nat := 3

/-- The capability bitset `device_info.bluetooth_proxy_feature_flags_compat`,
modelled as one Boolean per flag used by `client.py`. -/
structure FeatureFlags where
  remote_caching : Bool
  pairing : Bool
  cache_clearing : Bool
  deriving DecidableEq, Repr

/-- A GATT descriptor as delivered by the RPC service enumeration. -/
structure EsphomeDescriptor where
  uuid : String
  handle : Nat
  deriving DecidableEq, Repr

/-- A GATT characteristic as delivered by the RPC service enumeration. -/
structure EsphomeCharacteristic where
  uuid : String
  handle : Nat
  properties : List String
  descriptors : List EsphomeDescriptor
  deriving DecidableEq, Repr

/-- A GATT service as delivered by the RPC service enumeration
(`bluetooth_gatt_get_services`). -/
structure EsphomeService where
  uuid : String
  handle : Nat
  characteristics : List EsphomeCharacteristic
  deriving DecidableEq, Repr

/-- A characteristic as built by `_get_services`
(`BleakGATTCharacteristicESPHome(characteristic, max_write_without_response,
service.uuid, service.handle)`). -/
structure BuiltChar where
  uuid : String
  handle : Nat
  properties : List String
  maxWriteWithoutResponse : Int
  serviceUuid : String
  serviceHandle : Nat
  deriving DecidableEq, Repr

/-- A descriptor as built by `_get_services`
(`BleakGATTDescriptorESPHome(descriptor, characteristic.uuid,
characteristic.handle)`). -/
structure BuiltDescriptor where
  uuid : String
  handle : Nat
  charUuid : String
  charHandle : Nat
  deriving DecidableEq, Repr

/-- `BleakGATTServiceCollection`: the service topology owned by the client. -/
structure ServiceCollection where
  services : List (String × Nat)
  characteristics : List BuiltChar
  descriptors : List BuiltDescriptor
  deriving DecidableEq, Repr

/-- `BleakGATTServiceCollection()` freshly constructed: empty. -/
def ServiceCollection.empty : ServiceCollection :=
  { services := [], characteristics := [], descriptors := [] }

/-- Externally observable side effects of the client, recorded in order. -/
inductive Event where
  | rpcDisconnect
  | rpcConnect (hasCache : Bool)
  | notifyAbort (handle : Nat)
  | bleakDisconnectedCallback
  | unsubscribeConnState
  | cacheSetMtu (mtu : Nat)
  | cacheSetServices
  deriving DecidableEq, Repr

/-- The mutable state of one `ESPHomeClient`, together with the
per-address slice of the shared `ESPHomeBluetoothCache` (`cached_mtu`,
`cached_services`) and the global future table `futures`
(future id paired with its done flag; `asyncio` futures are created via
`loop.create_future()`, here drawn from the counter `next_future_id`). -/
structure ClientState where
  /-- `self._is_connected` -/
  is_connected : Bool
  /-- `self._mtu : int | None` -/
  mtu : Option Nat
  /-- `self.services` (None until resolved, reset to an empty collection
  by disconnect cleanup) -/
  services : Option ServiceCollection
  /-- `self._notify_cancels`: handles of active subscriptions (the stored
  stop/abort coroutine pair is opaque; aborting handle `h` is recorded as
  `Event.notifyAbort h`) -/
  notify_cancels : List Nat
  /-- all futures ever created on the loop: id paired with done flag -/
  futures : List (Nat × Bool)
  /-- `self._disconnected_futures`: ids of registered pending-disconnect
  waiters -/
  disconnected_futures : List Nat
  /-- counter producing fresh future ids -/
  next_future_id : Nat
  /-- `self._cancel_connection_state` (whether the cancel token is held) -/
  cancel_connection_state : Bool
  /-- `self._disconnected_callback` (whether the bleak consumer callback
  is set) -/
  disconnected_callback : Bool
  /-- whether `self._async_esp_disconnected` is currently appended to
  `self._disconnect_callbacks` -/
  esp_disconnect_cb_registered : Bool
  /-- `self._feature_flags` (fixed for the client's lifetime) -/
  feature_flags : FeatureFlags
  /-- `cache.get_gatt_mtu_cache(self._address_as_int)` slice -/
  cached_mtu : Option Nat
  /-- `cache.get_gatt_services_cache(self._address_as_int)` slice -/
  cached_services : Option ServiceCollection
  /-- observable side effects, in order -/
  events : List Event
  deriving DecidableEq, Repr

/-- Python truthiness of `self._mtu : int | None`: falsy iff `None` or `0`. -/
def mtuFalsy : Option Nat → Bool
  | none => true
  | some v => v == 0

/-- `mtu_size` property: `self._mtu or DEFAULT_MTU`. -/
def ClientState.mtu_size (s : ClientState) : Nat :=
  match s.mtu with
  | none => DEFAULT_MTU
  | some v => if v = 0 then DEFAULT_MTU else v

/-- `_unsubscribe_connection_state`: invoke and drop the cancel token if
held (exceptions from the token are logged and swallowed). -/
def unsubscribe_connection_state (s : ClientState) : ClientState :=
  if s.cancel_connection_state then
    { s with cancel_connection_state := false
             events := s.events ++ [Event.unsubscribeConnState] }
  else s

/-- The future-resolution loop of `_async_disconnected_cleanup`:
`for future in self._disconnected_futures: if not future.done():
future.set_result(None)`. -/
def resolveWaiters (futures : List (Nat × Bool)) (waiters : List Nat) :
    List (Nat × Bool) :=
  futures.map fun p => if waiters.contains p.1 && !p.2 then (p.1, true) else p

/-- `_async_disconnected_cleanup`: reset the topology to an empty
collection, mark disconnected, abort every notification and clear the
registry, resolve every registered waiter and clear the waiter set, then
unsubscribe from connection-state updates. -/
def async_disconnected_cleanup (s : ClientState) : ClientState :=
  let s1 := { s with services := some ServiceCollection.empty
                     is_connected := false }
  let s2 := { s1 with events := s1.events ++ s1.notify_cancels.map Event.notifyAbort
                      notify_cancels := [] }
  let s3 := { s2 with futures := resolveWaiters s2.futures s2.disconnected_futures
                      disconnected_futures := [] }
  unsubscribe_connection_state s3

/-- `_async_call_bleak_disconnected_callback`: invoke the bleak consumer
callback if set, then clear it. -/
def async_call_bleak_disconnected_callback (s : ClientState) : ClientState :=
  if s.disconnected_callback then
    { s with disconnected_callback := false
             events := s.events ++ [Event.bleakDisconnectedCallback] }
  else s

/-- `_async_ble_device_disconnected`: snapshot the connected flag, run
cleanup, and notify the bleak consumer only if the snapshot was
connected. -/
def async_ble_device_disconnected (s : ClientState) : ClientState :=
  let was_connected := s.is_connected
  let s1 := async_disconnected_cleanup s
  if was_connected then async_call_bleak_disconnected_callback s1 else s1

/-- The state of the `connected_future : asyncio.Future[bool]` awaited by
`connect`. -/
inductive ConnFuture where
  | pending
  | resolved (b : Bool)
  | failed (msg : String)
  deriving DecidableEq, Repr

/-- `future.done()`. -/
def ConnFuture.done : ConnFuture → Bool
  | .pending => false
  | _ => true

/-- The error-message computation of `_on_bluetooth_connection_state` for
a nonzero error code.  `descMap` models the composition of the
`BLEConnectionError` enum with `ESP_CONNECTION_ERROR_DESCRIPTION`
(None on `ValueError`/`KeyError`, i.e. an unmapped enum code), returning
the pair (name, human description); `gattMap` models
`ESPHOME_GATT_ERRORS.get`.  Both tables live in the out-of-scope
`aioesphomeapi` package, so they are parameters of the model. -/
def connectErrorString (descMap : Int → Option (String × String))
    (gattMap : Int → Option String) (error : Int) : String :=
  match descMap error with
  | some p => "Error " ++ p.1 ++ " while connecting: " ++ p.2
  | none =>
      let human := (gattMap error).getD ("Unknown error code " ++ toString error)
      "Error " ++ toString error ++ " while connecting: " ++ human

/-- `_on_bluetooth_connection_state`: handle one delivery of
`(connected, mtu, error)` for the given awaited future.  First the
client state is updated (mark connected and latch the MTU on a truthy
`connected` when `self._mtu` is falsy, or run link-drop handling on a
falsy `connected`); only then is the future examined: a done future is
left untouched, a nonzero error faults it with the mapped description, a
plain not-connected faults it with "Disconnected", and otherwise the
esp-disconnected callback is registered and the future resolves true. -/
def on_bluetooth_connection_state (descMap : Int → Option (String × String))
    (gattMap : Int → Option String) (s : ClientState) (fut : ConnFuture)
    (connected : Bool) (mtu : Nat) (error : Int) : ClientState × ConnFuture :=
  let s1 :=
    if connected then
      let s' := { s with is_connected := true }
      if mtuFalsy s'.mtu then
        { s' with mtu := some mtu
                  cached_mtu := some mtu
                  events := s'.events ++ [Event.cacheSetMtu mtu] }
      else s'
    else
      async_ble_device_disconnected s
  if fut.done then (s1, fut)
  else if error ≠ 0 then
    (s1, .failed (connectErrorString descMap gattMap error))
  else if !connected then
    (s1, .failed "Disconnected")
  else
    ({ s1 with esp_disconnect_cb_registered := true }, .resolved connected)

/-- The failure branches of an RPC call (`aioesphomeapi` exceptions),
identified by the `except` clauses of `api_error_as_bleak_error`. -/
inductive ApiError where
  | timeoutAPIError (msg : String)
  | bluetoothGATTAPIError (errorCode : Int) (msg : String)
  | apiConnectionError (msg : String)
  | other (msg : String)
  deriving DecidableEq, Repr

/-- Outcome of a call wrapped by `api_error_as_bleak_error`: the
constructor records which raise site produced the client-facing error. -/
inductive BleakCallResult (α : Type) where
  | ok (a : α)
  | timeout (msg : String)
  | gattBleakError (msg : String)
  | connectionBleakError (msg : String)
  | passthrough (e : ApiError)
  deriving DecidableEq, Repr

/-- Result of the underlying (unwrapped) RPC call. -/
inductive ApiCallResult (α : Type) where
  | ok (a : α)
  | fail (e : ApiError)
  deriving DecidableEq, Repr

/-- `api_error_as_bleak_error` applied to the underlying call's outcome:
`TimeoutAPIError` becomes `asyncio.TimeoutError`; `BluetoothGATTAPIError`
becomes `BleakError`, and when its code is the distinguished `-1`
("no connection") the link-drop handler runs before the raise;
`APIConnectionError` becomes `BleakError`; anything else propagates
unchanged. -/
def api_error_as_bleak_error (α : Type) (s : ClientState)
    (r : ApiCallResult α) : ClientState × BleakCallResult α :=
  match r with
  | .ok a => (s, .ok a)
  | .fail (.timeoutAPIError m) => (s, .timeout m)
  | .fail (.bluetoothGATTAPIError code m) =>
      let s' := if code = -1 then async_ble_device_disconnected s else s
      (s', .gattBleakError m)
  | .fail (.apiConnectionError m) => (s, .connectionBleakError m)
  | .fail (.other m) => (s, .passthrough (.other m))

/-- The registration step of `verify_connected`: create a fresh future
(`loop.create_future()`) and add it to `self._disconnected_futures`. -/
def registerWaiter (s : ClientState) : ClientState × Nat :=
  let fid := s.next_future_id
  ({ s with next_future_id := fid + 1
            futures := s.futures ++ [(fid, false)]
            disconnected_futures := s.disconnected_futures ++ [fid] }, fid)

/-- The `finally` step of `verify_connected`:
`disconnected_futures.discard(disconnected_future)`. -/
def discardWaiter (s : ClientState) (fid : Nat) : ClientState :=
  { s with disconnected_futures := s.disconnected_futures.filter (fun x => x ≠ fid) }

/-- `verify_connected`: wrap an operation so a fresh disconnect waiter is
registered before the underlying call starts and discarded on every exit
path (the `finally` block runs for success, exception, and cancellation
alike; the outcome type `ω` is opaque to the wrapper).  Note the wrapper
performs no up-front connectedness check: it only arms the
interrupt-on-link-drop race. -/
def verify_connected {ω : Type} (op : ClientState → ClientState × ω)
    (s : ClientState) : ClientState × ω :=
  let r := registerWaiter s
  let out := op r.1
  (discardWaiter out.1 r.2, out.2)

/-- The topology-building loop of `_get_services`: one service entry per
enumerated service, one `BleakGATTCharacteristicESPHome` per
characteristic carrying `max_write_without_response`, and one
`BleakGATTDescriptorESPHome` per descriptor. -/
def buildServices (maxWrite : Int) (svcs : List EsphomeService) :
    ServiceCollection :=
  { services := svcs.map fun svc => (svc.uuid, svc.handle)
    characteristics := svcs.flatMap fun svc =>
      svc.characteristics.map fun c =>
        { uuid := c.uuid
          handle := c.handle
          properties := c.properties
          maxWriteWithoutResponse := maxWrite
          serviceUuid := svc.uuid
          serviceHandle := svc.handle }
    descriptors := svcs.flatMap fun svc =>
      svc.characteristics.flatMap fun c =>
        c.descriptors.map fun d =>
          { uuid := d.uuid
            handle := d.handle
            charUuid := c.uuid
            charHandle := c.handle } }

/-- The body of `_get_services` (inside its `verify_connected` wrapper).
`rpc` is the service tree the RPC enumeration
(`bluetooth_gatt_get_services`) would deliver on the cache-miss path.
On a cache hit ((remote-caching flag or the caller's cache opt-in) and a
cached entry) the cached topology is installed and returned with no RPC.
Otherwise the tree is built with
`max_write_without_response = self.mtu_size - GATT_HEADER_SIZE`; a tree
with zero services raises `BleakError` ("Failed to get services from
remote esp"), and a non-empty one is installed and written to the shared
cache. -/
def get_services_inner (s : ClientState) (dangerous_use_bleak_cache : Bool)
    (rpc : List EsphomeService) :
    ClientState × Except String ServiceCollection :=
  let hit : Option ServiceCollection :=
    if s.feature_flags.remote_caching || dangerous_use_bleak_cache then
      s.cached_services
    else none
  match hit with
  | some cached => ({ s with services := some cached }, .ok cached)
  | none =>
      let maxWrite : Int := (s.mtu_size : Int) - (GATT_HEADER_SIZE : Int)
      let col := buildServices maxWrite rpc
      if rpc.isEmpty then
        (s, .error "Failed to get services from remote esp")
      else
        ({ s with services := some col
                  cached_services := some col
                  events := s.events ++ [Event.cacheSetServices] },
         .ok col)

/-- `_get_services` as called (wrapped by `verify_connected`). -/
def get_services (s : ClientState) (dangerous_use_bleak_cache : Bool)
    (rpc : List EsphomeService) :
    ClientState × Except String ServiceCollection :=
  verify_connected (fun t => get_services_inner t dangerous_use_bleak_cache rpc) s

/-- `_disconnect`: run local cleanup first, then issue the RPC
link-teardown request (`bluetooth_device_disconnect`), then wait for a
free connection slot (the wait is on the out-of-scope collaborator,
modelled as satisfied), and return True. -/
def disconnect_underlying (s : ClientState) : ClientState × Bool :=
  let s1 := async_disconnected_cleanup s
  ({ s1 with events := s1.events ++ [Event.rpcDisconnect] }, true)

/-- The `has_cache` hint computed by `connect`: caller opted in AND the
proxy advertises remote caching AND a cached topology exists AND a
cached MTU was loaded (Python truthiness on both cache values). -/
def connectHasCache (s : ClientState) (dangerous_use_bleak_cache : Bool) : Bool :=
  dangerous_use_bleak_cache && s.feature_flags.remote_caching
    && s.cached_services.isSome && !(mtuFalsy s.mtu)

/-- The connection-result signal delivered once to
`_on_bluetooth_connection_state` by the RPC layer. -/
structure ConnSignal where
  connected : Bool
  mtu : Nat
  error : Int
  deriving DecidableEq, Repr

/-- The body of `connect` (inside its `api_error_as_bleak_error`
wrapper), for the run in which the RPC connect call succeeds and the
connection-state callback delivers exactly the one signal `sig`; `rpc`
is the tree a subsequent cache-miss service enumeration would return.
Steps: load the cached MTU into the session, compute the `has_cache`
hint, issue the RPC connect (retaining the cancel token), deliver the
signal to the callback, await the connect future (a faulted future
raises), then run service discovery; a discovery failure runs
`_disconnect` and re-raises (connect is all-or-nothing). -/
def connect_inner (descMap : Int → Option (String × String))
    (gattMap : Int → Option String) (s : ClientState)
    (dangerous_use_bleak_cache : Bool) (sig : ConnSignal)
    (rpc : List EsphomeService) : ClientState × Except String Bool :=
  let s0 := { s with mtu := s.cached_mtu }
  let hint := connectHasCache s0 dangerous_use_bleak_cache
  let s1 := { s0 with cancel_connection_state := true
                      events := s0.events ++ [Event.rpcConnect hint] }
  let r := on_bluetooth_connection_state descMap gattMap s1 ConnFuture.pending
    sig.connected sig.mtu sig.error
  match r.2 with
  | .pending => (r.1, .error "connect future never resolved")
  | .failed msg => (r.1, .error msg)
  | .resolved _ =>
      match get_services r.1 dangerous_use_bleak_cache rpc with
      | (s2, .ok _) => (s2, .ok true)
      | (s2, .error e) => ((disconnect_underlying s2).1, .error e)

/-- A characteristic specifier accepted by `_resolve_characteristic`:
an integer handle, a UUID, or a characteristic object itself. -/
inductive CharSpecifier where
  | byHandle (h : Nat)
  | byUuid (u : String)
  | direct (c : BuiltChar)
  deriving DecidableEq, Repr

/-- `services.get_characteristic(specifier)` lookup on the collection. -/
def ServiceCollection.get_characteristic (col : ServiceCollection) :
    CharSpecifier → Option BuiltChar
  | .byHandle h => col.characteristics.find? fun c => c.handle == h
  | .byUuid u => col.characteristics.find? fun c => c.uuid == u
  | .direct c => some c

/-- `_resolve_characteristic`: fail if the topology is unresolved
(`None`); a direct characteristic object stands for itself, any other
specifier is looked up in the topology; a missed lookup fails with the
"was not found" `BleakError`. -/
def resolve_characteristic (s : ClientState) (spec : CharSpecifier) :
    Except String BuiltChar :=
  match s.services with
  | none => .error "Services have not been resolved"
  | some col =>
      let c? :=
        match spec with
        | .direct c => some c
        | _ => col.get_characteristic spec
      match c? with
      | some c => .ok c
      | none => .error "Characteristic was not found"

/-! Concrete sample data used by witnesses and counterexamples. -/

/-- A proxy with no optional capabilities. -/
def noFlags : FeatureFlags :=
  { remote_caching := false, pairing := false, cache_clearing := false }

/-- A freshly constructed client: disconnected, nothing cached. -/
def baseState : ClientState :=
  { is_connected := false
    mtu := none
    services := none
    notify_cancels := []
    futures := []
    disconnected_futures := []
    next_future_id := 0
    cancel_connection_state := false
    disconnected_callback := false
    esp_disconnect_cb_registered := false
    feature_flags := noFlags
    cached_mtu := none
    cached_services := none
    events := [] }

/-- An error-description table with no mapped codes. -/
def noDescMap : Int → Option (String × String) := fun _ => none

/-- A GATT-errors table with no mapped codes. -/
def noGattMap : Int → Option String := fun _ => none

/-- A sample enumerated descriptor. -/
def sampleDesc : EsphomeDescriptor := { uuid := "2902", handle := 4 }

/-- A sample enumerated characteristic. -/
def sampleChar : EsphomeCharacteristic :=
  { uuid := "ff01", handle := 3, properties := ["notify"],
    descriptors := [sampleDesc] }

/-- A sample enumerated service. -/
def sampleSvc : EsphomeService :=
  { uuid := "180f", handle := 1, characteristics := [sampleChar] }

/-- The callback-count of an event list (bleak disconnected callbacks). -/
def countBleakCb (evs : List Event) : Nat :=
  evs.count Event.bleakDisconnectedCallback

/-- `n` successive link-drop signals. -/
def dropSignals (n : Nat) (s : ClientState) : ClientState :=
  async_ble_device_disconnected^[n] s

/-- An error-description table mapping only code 1. -/
def someDescMap : Int → Option (String × String) :=
  fun e => if e = 1 then some ("CONNECTION_FAIL", "connection failed") else none

/-- A state with one registered waiter and one subscription (C2 witness). -/
def c2state : ClientState :=
  { baseState with futures := [(0, false)], disconnected_futures := [0],
                   next_future_id := 1, notify_cancels := [9] }

/-- A no-op wrapped operation returning 0 (C2 witness). -/
def c2op : ClientState → ClientState × Nat := fun t => (t, 0)

/-- An already-disconnected state with a live subscription and a held
connection-state token (C3 witness). -/
def c3state : ClientState :=
  { baseState with notify_cancels := [7], cancel_connection_state := true }

/-- A state whose shared cache already holds an MTU from a previous
lifecycle (C4 counterexample). -/
def c4state : ClientState :=
  { baseState with cached_mtu := some 50 }

/-- A connection-result signal reporting connected with MTU 185. -/
def c4sig : ConnSignal := { connected := true, mtu := 185, error := 0 }

/-- A connected state (C5 witness). -/
def c5state : ClientState :=
  { baseState with is_connected := true }

/-- A disconnected state that still holds a bleak disconnected callback
(C6 witness). -/
def c6state : ClientState :=
  { baseState with disconnected_callback := true }

/-- A disconnected state with a live subscription (C8 counterexample). -/
def c8state : ClientState :=
  { baseState with notify_cancels := [5] }

/-- A state with a negotiated MTU of 185 and an empty cache (C9 witness). -/
def c9state : ClientState :=
  { baseState with mtu := some 185 }

/-- A wrapped operation returning 42 (C10 witness). -/
def c10op : ClientState → ClientState × Nat := fun t => (t, 42)

/-- A connection-result signal reporting connected with MTU 100. -/
def c1sig : ConnSignal := { connected := true, mtu := 100, error := 0 }

/-- The topology freshly built from `sampleSvc` at MTU 185 (C9 witness). -/
def c9col : ServiceCollection := buildServices 182 [sampleSvc]

/-- The single characteristic of `c9col` (C9 witness). -/
def c9char : BuiltChar :=
  { uuid := "ff01", handle := 3, properties := ["notify"],
    maxWriteWithoutResponse := 182, serviceUuid := "180f", serviceHandle := 1 }

/-! Helper lemmas: field preservation of the cleanup-path functions. -/

theorem unsubscribe_is_connected (s : ClientState) :
    (unsubscribe_connection_state s).is_connected = s.is_connected := by
  unfold unsubscribe_connection_state; split <;> rfl

theorem unsubscribe_mtu (s : ClientState) :
    (unsubscribe_connection_state s).mtu = s.mtu := by
  unfold unsubscribe_connection_state; split <;> rfl

theorem unsubscribe_cached_mtu (s : ClientState) :
    (unsubscribe_connection_state s).cached_mtu = s.cached_mtu := by
  unfold unsubscribe_connection_state; split <;> rfl

theorem unsubscribe_cached_services (s : ClientState) :
    (unsubscribe_connection_state s).cached_services = s.cached_services := by
  unfold unsubscribe_connection_state; split <;> rfl

theorem unsubscribe_services (s : ClientState) :
    (unsubscribe_connection_state s).services = s.services := by
  unfold unsubscribe_connection_state; split <;> rfl

theorem unsubscribe_futures (s : ClientState) :
    (unsubscribe_connection_state s).futures = s.futures := by
  unfold unsubscribe_connection_state; split <;> rfl

theorem unsubscribe_disconnected_futures (s : ClientState) :
    (unsubscribe_connection_state s).disconnected_futures
      = s.disconnected_futures := by
  unfold unsubscribe_connection_state; split <;> rfl

theorem unsubscribe_notify_cancels (s : ClientState) :
    (unsubscribe_connection_state s).notify_cancels = s.notify_cancels := by
  unfold unsubscribe_connection_state; split <;> rfl

theorem unsubscribe_disconnected_callback (s : ClientState) :
    (unsubscribe_connection_state s).disconnected_callback
      = s.disconnected_callback := by
  unfold unsubscribe_connection_state; split <;> rfl

theorem cleanup_is_connected (s : ClientState) :
    (async_disconnected_cleanup s).is_connected = false := by
  unfold async_disconnected_cleanup
  rw [unsubscribe_is_connected]

theorem cleanup_services (s : ClientState) :
    (async_disconnected_cleanup s).services = some ServiceCollection.empty := by
  unfold async_disconnected_cleanup
  rw [unsubscribe_services]

theorem cleanup_mtu (s : ClientState) :
    (async_disconnected_cleanup s).mtu = s.mtu := by
  unfold async_disconnected_cleanup
  rw [unsubscribe_mtu]

theorem cleanup_cached_mtu (s : ClientState) :
    (async_disconnected_cleanup s).cached_mtu = s.cached_mtu := by
  unfold async_disconnected_cleanup
  rw [unsubscribe_cached_mtu]

theorem cleanup_cached_services (s : ClientState) :
    (async_disconnected_cleanup s).cached_services = s.cached_services := by
  unfold async_disconnected_cleanup
  rw [unsubscribe_cached_services]

theorem cleanup_futures (s : ClientState) :
    (async_disconnected_cleanup s).futures
      = resolveWaiters s.futures s.disconnected_futures := by
  unfold async_disconnected_cleanup
  rw [unsubscribe_futures]

theorem cleanup_disconnected_futures (s : ClientState) :
    (async_disconnected_cleanup s).disconnected_futures = [] := by
  unfold async_disconnected_cleanup
  rw [unsubscribe_disconnected_futures]

theorem cleanup_notify_cancels (s : ClientState) :
    (async_disconnected_cleanup s).notify_cancels = [] := by
  unfold async_disconnected_cleanup
  rw [unsubscribe_notify_cancels]

theorem cleanup_disconnected_callback (s : ClientState) :
    (async_disconnected_cleanup s).disconnected_callback
      = s.disconnected_callback := by
  unfold async_disconnected_cleanup
  rw [unsubscribe_disconnected_callback]

theorem bleak_cb_is_connected (s : ClientState) :
    (async_call_bleak_disconnected_callback s).is_connected = s.is_connected := by
  unfold async_call_bleak_disconnected_callback; split <;> rfl

theorem bleak_cb_mtu (s : ClientState) :
    (async_call_bleak_disconnected_callback s).mtu = s.mtu := by
  unfold async_call_bleak_disconnected_callback; split <;> rfl

theorem bleak_cb_cached_mtu (s : ClientState) :
    (async_call_bleak_disconnected_callback s).cached_mtu = s.cached_mtu := by
  unfold async_call_bleak_disconnected_callback; split <;> rfl

theorem bleak_cb_cached_services (s : ClientState) :
    (async_call_bleak_disconnected_callback s).cached_services
      = s.cached_services := by
  unfold async_call_bleak_disconnected_callback; split <;> rfl

theorem bleak_cb_services (s : ClientState) :
    (async_call_bleak_disconnected_callback s).services = s.services := by
  unfold async_call_bleak_disconnected_callback; split <;> rfl

theorem drop_is_connected (s : ClientState) :
    (async_ble_device_disconnected s).is_connected = false := by
  by_cases h : s.is_connected <;>
    simp [async_ble_device_disconnected, h, bleak_cb_is_connected,
      cleanup_is_connected]

theorem drop_mtu (s : ClientState) :
    (async_ble_device_disconnected s).mtu = s.mtu := by
  by_cases h : s.is_connected <;>
    simp [async_ble_device_disconnected, h, bleak_cb_mtu, cleanup_mtu]

theorem drop_cached_mtu (s : ClientState) :
    (async_ble_device_disconnected s).cached_mtu = s.cached_mtu := by
  by_cases h : s.is_connected <;>
    simp [async_ble_device_disconnected, h, bleak_cb_cached_mtu,
      cleanup_cached_mtu]

theorem drop_cached_services (s : ClientState) :
    (async_ble_device_disconnected s).cached_services = s.cached_services := by
  by_cases h : s.is_connected <;>
    simp [async_ble_device_disconnected, h, bleak_cb_cached_services,
      cleanup_cached_services]

theorem drop_services (s : ClientState) :
    (async_ble_device_disconnected s).services
      = some ServiceCollection.empty := by
  by_cases h : s.is_connected <;>
    simp [async_ble_device_disconnected, h, bleak_cb_services,
      cleanup_services]

/-! Helper lemmas: event counts along the cleanup path. -/

theorem unsubscribe_count (s : ClientState) (e : Event)
    (h : e ≠ Event.unsubscribeConnState) :
    ((unsubscribe_connection_state s).events).count e = (s.events).count e := by
  unfold unsubscribe_connection_state
  split
  · simp [List.count_append, List.count_singleton', h]
  · rfl

theorem cleanup_count (s : ClientState) (e : Event)
    (h1 : e ≠ Event.unsubscribeConnState)
    (h2 : ∀ hnd, e ≠ Event.notifyAbort hnd) :
    ((async_disconnected_cleanup s).events).count e = (s.events).count e := by
  unfold async_disconnected_cleanup
  rw [unsubscribe_count _ _ h1]
  have hz : (s.notify_cancels.map Event.notifyAbort).count e = 0 := by
    rw [List.count_eq_zero]
    intro hm
    rcases List.mem_map.mp hm with ⟨x, _, hx⟩
    exact h2 x hx.symm
  simp [List.count_append, hz]

theorem bleak_cb_count_le (s : ClientState) (e : Event) :
    ((async_call_bleak_disconnected_callback s).events).count e
      ≤ (s.events).count e + 1 := by
  unfold async_call_bleak_disconnected_callback
  split
  · simp only [List.count_append, List.count_singleton']
    split <;> omega
  · omega

theorem drop_count_cb_le (s : ClientState) :
    ((async_ble_device_disconnected s).events).count Event.bleakDisconnectedCallback
      ≤ (s.events).count Event.bleakDisconnectedCallback + 1 := by
  unfold async_ble_device_disconnected
  by_cases h : s.is_connected
  · simp only [h, if_pos]
    calc ((async_call_bleak_disconnected_callback
            (async_disconnected_cleanup s)).events).count
              Event.bleakDisconnectedCallback
        ≤ ((async_disconnected_cleanup s).events).count
            Event.bleakDisconnectedCallback + 1 := bleak_cb_count_le _ _
      _ = (s.events).count Event.bleakDisconnectedCallback + 1 := by
          rw [cleanup_count] <;> simp
  · simp only [h]
    rw [if_neg (by simp [h])]
    rw [cleanup_count] <;> simp

theorem drop_count_cb_of_disconnected (s : ClientState)
    (h : s.is_connected = false) :
    ((async_ble_device_disconnected s).events).count
        Event.bleakDisconnectedCallback
      = (s.events).count Event.bleakDisconnectedCallback := by
  unfold async_ble_device_disconnected
  rw [if_neg (by simp [h])]
  rw [cleanup_count] <;> simp

/-! Helper lemmas: the built topology. -/

theorem buildServices_max_write (maxWrite : Int) (svcs : List EsphomeService) :
    ∀ c ∈ (buildServices maxWrite svcs).characteristics,
      c.maxWriteWithoutResponse = maxWrite := by
  intro c hc
  simp only [buildServices, List.mem_flatMap, List.mem_map] at hc
  obtain ⟨svc, _, cc, _, hcc⟩ := hc
  rw [← hcc]

theorem buildServices_services_length (maxWrite : Int)
    (svcs : List EsphomeService) :
    (buildServices maxWrite svcs).services.length = svcs.length := by
  simp [buildServices]

/-- C3: `disconnect` is idempotent: on an already-disconnected Session it
produces no error, runs the local cleanup (clear topology, mark
disconnected, abort notifications, resolve waiters, unsubscribe
connection-state) before issuing the RPC disconnect request, and the
second of two consecutive disconnect calls still issues the underlying
RPC link-teardown request. -/
theorem C3_disconnect_idempotent (s : ClientState)
    (h : s.is_connected = false) :
    (disconnect_underlying s).2 = true ∧
    (disconnect_underlying (disconnect_underlying s).1).2 = true ∧
    (disconnect_underlying s).1
      = { async_disconnected_cleanup s with
          events := (async_disconnected_cleanup s).events
            ++ [Event.rpcDisconnect] } ∧
    ((disconnect_underlying (disconnect_underlying s).1).1.events).count
        Event.rpcDisconnect
      = (s.events).count Event.rpcDisconnect + 2 := by
  refine ⟨rfl, rfl, rfl, ?_⟩
  show ((({ async_disconnected_cleanup ((disconnect_underlying s).1) with
      events := (async_disconnected_cleanup ((disconnect_underlying s).1)).events
        ++ [Event.rpcDisconnect] } : ClientState).events).count Event.rpcDisconnect)
    = (s.events).count Event.rpcDisconnect + 2
  simp only [List.count_append, List.count_singleton]
  rw [cleanup_count _ _ (by simp) (by simp)]
  show (((async_disconnected_cleanup s).events ++ [Event.rpcDisconnect]).count
      Event.rpcDisconnect) + 1 = (s.events).count Event.rpcDisconnect + 2
  simp only [List.count_append, List.count_singleton]
  rw [cleanup_count _ _ (by simp) (by simp)]
  simp

/-- C3 witness: the theorem applied to a concrete already-disconnected
Session holding one subscription and a connection-state token. -/
theorem C3_disconnect_idempotent_witness :
    (disconnect_underlying c3state).2 = true ∧
    (disconnect_underlying (disconnect_underlying c3state).1).2 = true ∧
    (disconnect_underlying c3state).1
      = { async_disconnected_cleanup c3state with
          events := (async_disconnected_cleanup c3state).events
            ++ [Event.rpcDisconnect] } ∧
    ((disconnect_underlying (disconnect_underlying c3state).1).1.events).count
        Event.rpcDisconnect
      = (c3state.events).count Event.rpcDisconnect + 2 :=
  C3_disconnect_idempotent c3state rfl

/-- C5: the error translator maps each failure raised inside an RPC call
to exactly one client-facing error kind (`asyncio.TimeoutError` for RPC
timeouts, `BleakError` raised at the GATT-failure site, `BleakError`
raised at the transport-failure site, unrecognized failures passed
through unchanged), and when the GATT failure carries the distinguished
"no connection" code `-1` the link-drop cleanup runs before the
translated error is re-raised, so the caller observes a disconnected
Session. -/
theorem C5_error_translation (α : Type) (s : ClientState) (m : String)
    (code : Int) (hcode : code ≠ -1) :
    api_error_as_bleak_error α s (.fail (.timeoutAPIError m))
      = (s, .timeout m) ∧
    api_error_as_bleak_error α s (.fail (.bluetoothGATTAPIError code m))
      = (s, .gattBleakError m) ∧
    (api_error_as_bleak_error α s (.fail (.bluetoothGATTAPIError (-1) m))).2
      = .gattBleakError m ∧
    (api_error_as_bleak_error α s (.fail (.bluetoothGATTAPIError (-1) m))).1
      = async_ble_device_disconnected s ∧
    ((api_error_as_bleak_error α s
        (.fail (.bluetoothGATTAPIError (-1) m))).1).is_connected = false ∧
    api_error_as_bleak_error α s (.fail (.apiConnectionError m))
      = (s, .connectionBleakError m) ∧
    api_error_as_bleak_error α s (.fail (.other m))
      = (s, .passthrough (.other m)) := by
  refine ⟨rfl, ?_, ?_, ?_, ?_, rfl, rfl⟩
  · simp [api_error_as_bleak_error, hcode]
  · simp [api_error_as_bleak_error]
  · simp [api_error_as_bleak_error]
  · simp [api_error_as_bleak_error, drop_is_connected]

/-- C5 witness: the theorem applied to a concrete connected Session and
the non-distinguished code 5. -/
theorem C5_error_translation_witness :
    api_error_as_bleak_error Nat c5state (.fail (.timeoutAPIError "boom"))
      = (c5state, .timeout "boom") ∧
    api_error_as_bleak_error Nat c5state
        (.fail (.bluetoothGATTAPIError 5 "boom"))
      = (c5state, .gattBleakError "boom") ∧
    (api_error_as_bleak_error Nat c5state
        (.fail (.bluetoothGATTAPIError (-1) "boom"))).2 = .gattBleakError "boom" ∧
    (api_error_as_bleak_error Nat c5state
        (.fail (.bluetoothGATTAPIError (-1) "boom"))).1
      = async_ble_device_disconnected c5state ∧
    ((api_error_as_bleak_error Nat c5state
        (.fail (.bluetoothGATTAPIError (-1) "boom"))).1).is_connected = false ∧
    api_error_as_bleak_error Nat c5state (.fail (.apiConnectionError "boom"))
      = (c5state, .connectionBleakError "boom") ∧
    api_error_as_bleak_error Nat c5state (.fail (.other "boom"))
      = (c5state, .passthrough (.other "boom")) :=
  C5_error_translation Nat c5state "boom" 5 (by decide)

/-- C7: with the connect future still pending, a `(connected := false,
error := 0)` delivery faults the connect with the generic "Disconnected"
error; a nonzero unmapped code faults it with the fallback
"Unknown error code N" description; a nonzero mapped code faults it with
the description from the mapping. -/
theorem C7_connect_result_errors (descMap : Int → Option (String × String))
    (gattMap : Int → Option String) (s : ClientState) (mtu : Nat)
    (e1 e2 : Int) (nm hm : String)
    (h1 : e1 ≠ 0) (hd1 : descMap e1 = none) (hg1 : gattMap e1 = none)
    (h2 : e2 ≠ 0) (hd2 : descMap e2 = some (nm, hm)) :
    (on_bluetooth_connection_state descMap gattMap s .pending false mtu 0).2
      = .failed "Disconnected" ∧
    (∀ connected,
      (on_bluetooth_connection_state descMap gattMap s .pending connected mtu e1).2
        = .failed ("Error " ++ toString e1 ++ " while connecting: "
            ++ ("Unknown error code " ++ toString e1))) ∧
    (∀ connected,
      (on_bluetooth_connection_state descMap gattMap s .pending connected mtu e2).2
        = .failed ("Error " ++ nm ++ " while connecting: " ++ hm)) := by
  refine ⟨?_, ?_, ?_⟩
  · simp [on_bluetooth_connection_state, ConnFuture.done]
  · intro connected
    simp [on_bluetooth_connection_state, ConnFuture.done, h1,
      connectErrorString, hd1, hg1]
  · intro connected
    simp [on_bluetooth_connection_state, ConnFuture.done, h2,
      connectErrorString, hd2]

/-- C7 witness: the theorem applied at the unmapped code 7 and the mapped
code 1 of `someDescMap`, with `connected := false`. -/
theorem C7_connect_result_errors_witness :
    (on_bluetooth_connection_state someDescMap noGattMap baseState
        .pending false 23 0).2 = .failed "Disconnected" ∧
    (on_bluetooth_connection_state someDescMap noGattMap baseState
        .pending false 23 7).2
      = .failed "Error 7 while connecting: Unknown error code 7" ∧
    (on_bluetooth_connection_state someDescMap noGattMap baseState
        .pending false 23 1).2
      = .failed "Error CONNECTION_FAIL while connecting: connection failed" :=
  have h := C7_connect_result_errors someDescMap noGattMap baseState 23 7 1
    "CONNECTION_FAIL" "connection failed" (by decide) (by decide) rfl
    (by decide) (by decide)
  ⟨h.1, h.2.1 false, h.2.2 false⟩

/-- C9: in every freshly discovered (cache-miss) topology, each
characteristic's maximum write-without-response size equals the Session's
current MTU size minus the GATT header size of 3 (so with a negotiated
MTU of 185 it is 182), attached to every characteristic built during
that discovery. -/
theorem C9_fresh_topology_write_size (s s' : ClientState) (d : Bool)
    (rpc : List EsphomeService) (col : ServiceCollection)
    (hmiss : s.cached_services = none)
    (hok : get_services_inner s d rpc = (s', Except.ok col)) :
    (∀ c ∈ col.characteristics,
        c.maxWriteWithoutResponse
          = (s.mtu_size : Int) - (GATT_HEADER_SIZE : Int)) ∧
    (s.mtu = some 185 → ∀ c ∈ col.characteristics,
        c.maxWriteWithoutResponse = 182) := by
  simp only [get_services_inner, hmiss, ite_self] at hok
  split at hok
  · exact absurd (congrArg Prod.snd hok) (by simp)
  · have hcol : col
        = buildServices ((s.mtu_size : Int) - (GATT_HEADER_SIZE : Int)) rpc := by
      have := congrArg Prod.snd hok
      simpa using this.symm
    subst hcol
    refine ⟨buildServices_max_write _ _, fun hmtu c hc => ?_⟩
    have := buildServices_max_write _ rpc c hc
    rw [this]
    simp [ClientState.mtu_size, hmtu, GATT_HEADER_SIZE]

/-- C9 witness: discovery at MTU 185 over `sampleSvc` attaches 182 to
the built characteristic. -/
theorem C9_fresh_topology_write_size_witness :
    c9char ∈ c9col.characteristics ∧ c9char.maxWriteWithoutResponse = 182 :=
  ⟨by decide,
    (C9_fresh_topology_write_size c9state
        (get_services_inner c9state false [sampleSvc]).1 false [sampleSvc]
        c9col rfl rfl).2 rfl c9char (by decide)⟩

/-! Helper lemmas: the connection-state callback. -/

theorem cb_cached_services (dm : Int → Option (String × String))
    (gm : Int → Option String) (s : ClientState) (fut : ConnFuture)
    (c : Bool) (m : Nat) (e : Int) :
    ((on_bluetooth_connection_state dm gm s fut c m e).1).cached_services
      = s.cached_services := by
  by_cases hc : c <;> by_cases hd : fut.done = true <;>
    rcases eq_or_ne e 0 with he | he <;>
      by_cases hm : mtuFalsy s.mtu <;>
        simp [on_bluetooth_connection_state, hc, hd, he, hm,
          drop_cached_services]

theorem cb_pending_success (dm : Int → Option (String × String))
    (gm : Int → Option String) (s : ClientState) (m : Nat) :
    (on_bluetooth_connection_state dm gm s .pending true m 0).2
      = .resolved true := by
  by_cases hm : mtuFalsy s.mtu <;>
    simp [on_bluetooth_connection_state, ConnFuture.done, hm]

theorem cb_state_mtu (dm : Int → Option (String × String))
    (gm : Int → Option String) (s : ClientState) (fut : ConnFuture)
    (m : Nat) (e : Int) :
    ((on_bluetooth_connection_state dm gm s fut true m e).1).mtu
      = (if mtuFalsy s.mtu then some m else s.mtu) ∧
    ((on_bluetooth_connection_state dm gm s fut true m e).1).cached_mtu
      = (if mtuFalsy s.mtu then some m else s.cached_mtu) := by
  by_cases hd : fut.done = true <;>
    rcases eq_or_ne e 0 with he | he <;>
      by_cases hm : mtuFalsy s.mtu <;>
        simp [on_bluetooth_connection_state, hd, he, hm]

/-! Helper lemmas: service discovery. -/

theorem get_services_inner_spec (t t' : ClientState) (d : Bool)
    (rpc : List EsphomeService) (col : ServiceCollection)
    (hok : get_services_inner t d rpc = (t', Except.ok col)) :
    t'.services = some col ∧
    (t.cached_services = none →
      col.services.length = rpc.length ∧ rpc ≠ []) := by
  simp only [get_services_inner] at hok
  split at hok
  case h_1 cached heq =>
    have h1 := congrArg Prod.fst hok
    have h2 := congrArg Prod.snd hok
    simp only [Except.ok.injEq] at h1 h2
    constructor
    · rw [← h1]
      simp [h2]
    · intro hmiss
      rw [hmiss] at heq
      simp at heq
  case h_2 heq =>
    split at hok
    · exact absurd (congrArg Prod.snd hok) (by simp)
    · rename_i hne
      have h1 := congrArg Prod.fst hok
      have h2 := congrArg Prod.snd hok
      simp only [Except.ok.injEq] at h1 h2
      constructor
      · rw [← h1, ← h2]
      · intro _
        rw [← h2]
        exact ⟨buildServices_services_length _ _, by
          intro hrpc
          rw [hrpc] at hne
          simp at hne⟩

theorem get_services_spec (s s' : ClientState) (d : Bool)
    (rpc : List EsphomeService) (col : ServiceCollection)
    (hok : get_services s d rpc = (s', Except.ok col)) :
    s'.services = some col ∧
    (s.cached_services = none → col.services ≠ []) := by
  unfold get_services verify_connected at hok
  simp only [] at hok
  have h1 := congrArg Prod.fst hok
  have h2 := congrArg Prod.snd hok
  simp only [] at h1 h2
  have hinner : get_services_inner (registerWaiter s).1 d rpc
      = ((get_services_inner (registerWaiter s).1 d rpc).1, Except.ok col) := by
    rw [← h2]
  have hspec := get_services_inner_spec _ _ _ _ _ hinner
  constructor
  · rw [← h1]
    exact hspec.1
  · intro hmiss
    have hreg : ((registerWaiter s).1).cached_services = none := hmiss
    have := (hspec.2 hreg).2
    intro hcol
    have hlen := (hspec.2 hreg).1
    rw [hcol] at hlen
    simp at hlen
    exact this (List.length_eq_zero.mp hlen.symm)

theorem get_services_empty_err (s : ClientState) (d : Bool)
    (hmiss : s.cached_services = none) :
    (get_services s d []).2
      = .error "Failed to get services from remote esp" := by
  unfold get_services verify_connected
  simp only []
  show (get_services_inner (registerWaiter s).1 d []).2 = _
  have hreg : ((registerWaiter s).1).cached_services = none := hmiss
  simp [get_services_inner, hreg]

/-- C8 counterexample: with the connect future already resolved, the
connection-state callback still mutates the Session.  At the concrete
state `c8state` (disconnected, one live subscription) a late
`connected := true` signal flips the connected flag, and a late
`connected := false` signal clears the notification registry — so the
callback does not leave the Session's state unchanged. -/
theorem C8_late_signal_counterexample :
    (ConnFuture.resolved true).done = true ∧
    c8state.is_connected = false ∧
    ((on_bluetooth_connection_state noDescMap noGattMap c8state
        (ConnFuture.resolved true) true 100 0).1).is_connected = true ∧
    c8state.notify_cancels = [5] ∧
    ((on_bluetooth_connection_state noDescMap noGattMap c8state
        (ConnFuture.resolved true) false 100 0).1).notify_cancels = [] :=
  ⟨rfl, rfl, rfl, rfl, rfl⟩

/-- C8 (amended): when the connection-state callback is delivered while
the awaiting future is already resolved, the future is left untouched
(never resolved or faulted again), but the state update still happens: a
connected signal marks the Session connected and a not-connected signal
runs the link-drop handler. -/
theorem C8_late_signal_state_update (dm : Int → Option (String × String))
    (gm : Int → Option String) (s : ClientState) (fut : ConnFuture)
    (c : Bool) (m : Nat) (e : Int) (hdone : fut.done = true) :
    (on_bluetooth_connection_state dm gm s fut c m e).2 = fut ∧
    (c = true →
      ((on_bluetooth_connection_state dm gm s fut c m e).1).is_connected
        = true) ∧
    (c = false →
      (on_bluetooth_connection_state dm gm s fut c m e).1
        = async_ble_device_disconnected s) := by
  refine ⟨?_, ?_, ?_⟩
  · by_cases hc : c <;> by_cases hm : mtuFalsy s.mtu <;>
      simp [on_bluetooth_connection_state, hdone, hc, hm]
  · intro hc
    subst hc
    by_cases hm : mtuFalsy s.mtu <;>
      simp [on_bluetooth_connection_state, hdone, hm]
  · intro hc
    subst hc
    simp [on_bluetooth_connection_state, hdone]

/-- C8 witness: the amended theorem applied to a concrete resolved
future and both signal polarities. -/
theorem C8_late_signal_state_update_witness :
    (on_bluetooth_connection_state noDescMap noGattMap c8state
        (ConnFuture.resolved true) true 100 0).2 = ConnFuture.resolved true ∧
    ((on_bluetooth_connection_state noDescMap noGattMap c8state
        (ConnFuture.resolved true) true 100 0).1).is_connected = true ∧
    (on_bluetooth_connection_state noDescMap noGattMap c8state
        (ConnFuture.resolved true) false 100 0).1
      = async_ble_device_disconnected c8state :=
  have h1 := C8_late_signal_state_update noDescMap noGattMap c8state
    (ConnFuture.resolved true) true 100 0 rfl
  have h2 := C8_late_signal_state_update noDescMap noGattMap c8state
    (ConnFuture.resolved true) false 100 0 rfl
  ⟨h1.1, h1.2.1 rfl, h2.2.2 rfl⟩

theorem bleak_cb_notify_cancels (s : ClientState) :
    (async_call_bleak_disconnected_callback s).notify_cancels
      = s.notify_cancels := by
  unfold async_call_bleak_disconnected_callback; split <;> rfl

theorem drop_notify_cancels (s : ClientState) :
    (async_ble_device_disconnected s).notify_cancels = [] := by
  by_cases h : s.is_connected <;>
    simp [async_ble_device_disconnected, h, bleak_cb_notify_cancels,
      cleanup_notify_cancels]

theorem dropSignals_disconnected (s : ClientState) (n : Nat)
    (h : s.is_connected = false) :
    countBleakCb (dropSignals n s).events = countBleakCb s.events ∧
    (dropSignals n s).is_connected = false := by
  induction n generalizing s with
  | zero => exact ⟨rfl, h⟩
  | succ n ih =>
      have hstep := drop_count_cb_of_disconnected s h
      have hconn := drop_is_connected s
      have hrec := ih (async_ble_device_disconnected s) hconn
      have hiter : dropSignals (n + 1) s
          = dropSignals n (async_ble_device_disconnected s) := by
        rw [dropSignals, dropSignals, Function.iterate_succ_apply]
      constructor
      · rw [hiter, hrec.1]
        exact hstep
      · rw [hiter]
        exact hrec.2

/-- C6: the client-facing disconnect callback fires at most once per
lifecycle instance across any number of link-drop signals, and only if
the Session had reached Connected (on a disconnected Session further
link-drop signals invoke no callback); every link-drop signal still runs
cleanup (registry emptied, Session disconnected). -/
theorem C6_disconnect_callback_once (s : ClientState) (n : Nat) :
    countBleakCb (dropSignals (n + 1) s).events
      ≤ countBleakCb s.events + 1 ∧
    (s.is_connected = false →
      countBleakCb (dropSignals (n + 1) s).events = countBleakCb s.events) ∧
    (dropSignals (n + 1) s).notify_cancels = [] ∧
    (dropSignals (n + 1) s).is_connected = false := by
  have hconn := drop_is_connected s
  have hrec := dropSignals_disconnected (async_ble_device_disconnected s) n hconn
  have hiter : dropSignals (n + 1) s
      = dropSignals n (async_ble_device_disconnected s) := by
    rw [dropSignals, dropSignals, Function.iterate_succ_apply]
  refine ⟨?_, ?_, ?_, ?_⟩
  · rw [hiter, hrec.1]
    exact drop_count_cb_le s
  · intro h
    rw [hiter, hrec.1]
    exact drop_count_cb_of_disconnected s h
  · have hlast : dropSignals (n + 1) s
        = async_ble_device_disconnected (dropSignals n s) := by
      rw [dropSignals, dropSignals, Function.iterate_succ_apply']
    rw [hlast]
    exact drop_notify_cancels _
  · rw [hiter]
    exact hrec.2

/-- C6 witness: two link-drop signals on a disconnected Session that
still holds a bleak callback invoke it zero times. -/
theorem C6_disconnect_callback_once_witness :
    countBleakCb (dropSignals 2 c6state).events
      ≤ countBleakCb c6state.events + 1 ∧
    countBleakCb (dropSignals 2 c6state).events = countBleakCb c6state.events ∧
    (dropSignals 2 c6state).notify_cancels = [] :=
  have h := C6_disconnect_callback_once c6state 1
  ⟨h.1, h.2.1 rfl, h.2.2.1⟩

/-- C2: each wrapped operation registers a fresh cancellation waiter
before the underlying call starts and deregisters it on every exit path,
so the waiter set after the wrapped call equals the set before it; and
link-drop cleanup resolves (not merely discards) every registered waiter
and leaves both the waiter set and the notification registry empty. -/
theorem C2_waiter_discipline (ω : Type) (op : ClientState → ClientState × ω)
    (s : ClientState)
    (hb : ∀ fid ∈ s.disconnected_futures, fid < s.next_future_id)
    (hframe : ((op (registerWaiter s).1).1).disconnected_futures
      = ((registerWaiter s).1).disconnected_futures) :
    ((registerWaiter s).1).disconnected_futures
      = s.disconnected_futures ++ [s.next_future_id] ∧
    ((verify_connected op s).1).disconnected_futures
      = s.disconnected_futures ∧
    (∀ fid done, (fid, done) ∈ s.futures → fid ∈ s.disconnected_futures →
      (fid, true) ∈ (async_disconnected_cleanup s).futures) ∧
    (async_disconnected_cleanup s).disconnected_futures = [] ∧
    (async_disconnected_cleanup s).notify_cancels = [] := by
  refine ⟨rfl, ?_, ?_, cleanup_disconnected_futures s,
    cleanup_notify_cancels s⟩
  · show (discardWaiter (op (registerWaiter s).1).1
        (registerWaiter s).2).disconnected_futures = s.disconnected_futures
    unfold discardWaiter
    simp only []
    rw [hframe]
    show ((s.disconnected_futures ++ [s.next_future_id]).filter
        fun x => decide (x ≠ s.next_future_id)) = s.disconnected_futures
    rw [List.filter_append]
    have h1 : (s.disconnected_futures.filter
        fun x => decide (x ≠ s.next_future_id)) = s.disconnected_futures := by
      apply List.filter_eq_self.mpr
      intro a ha
      have := hb a ha
      simp
      omega
    have h2 : (([s.next_future_id] : List Nat).filter
        fun x => decide (x ≠ s.next_future_id)) = [] := by simp
    rw [h1, h2, List.append_nil]
  · intro fid done hf hw
    rw [cleanup_futures]
    unfold resolveWaiters
    have hc : s.disconnected_futures.contains fid = true := by simpa using hw
    refine List.mem_map.mpr ⟨(fid, done), hf, ?_⟩
    cases done
    · simp [hc]
      exact hw
    · simp

/-- C2 witness: the theorem applied to a concrete no-op operation on a
state with one registered waiter (id 0) and one subscription. -/
theorem C2_waiter_discipline_witness :
    ((verify_connected c2op c2state).1).disconnected_futures
      = c2state.disconnected_futures ∧
    (0, true) ∈ (async_disconnected_cleanup c2state).futures ∧
    (async_disconnected_cleanup c2state).disconnected_futures = [] ∧
    (async_disconnected_cleanup c2state).notify_cancels = [] :=
  have h := C2_waiter_discipline Nat c2op c2state (by decide) rfl
  ⟨h.2.1, h.2.2.1 0 false (by decide) (by decide), h.2.2.2.1, h.2.2.2.2⟩

/-- C10: the connected-only wrapper performs no up-front connectedness
check: on a Session whose connected flag is false (and with no pending
link-drop) the wrapped operation's outcome is exactly the underlying
operation's outcome — never a "not connected" rejection; the call can
only fail later, e.g. when characteristic resolution runs against the
empty topology installed by cleanup. -/
theorem C10_no_upfront_check (ω : Type) (op : ClientState → ClientState × ω)
    (s : ClientState) (h : s.is_connected = false) :
    (verify_connected op s).2 = (op (registerWaiter s).1).2 ∧
    (∀ hnd, resolve_characteristic (async_disconnected_cleanup s)
        (.byHandle hnd) = .error "Characteristic was not found") ∧
    (∀ u, resolve_characteristic (async_disconnected_cleanup s)
        (.byUuid u) = .error "Characteristic was not found") := by
  refine ⟨rfl, ?_, ?_⟩
  · intro hnd
    simp [resolve_characteristic, cleanup_services,
      ServiceCollection.get_characteristic, ServiceCollection.empty]
  · intro u
    simp [resolve_characteristic, cleanup_services,
      ServiceCollection.get_characteristic, ServiceCollection.empty]

/-- C10 witness: a disconnected Session runs the wrapped operation and
later resolution against the cleaned topology fails. -/
theorem C10_no_upfront_check_witness :
    (verify_connected c10op baseState).2 = (c10op (registerWaiter baseState).1).2 ∧
    resolve_characteristic (async_disconnected_cleanup baseState)
      (.byHandle 3) = .error "Characteristic was not found" ∧
    resolve_characteristic (async_disconnected_cleanup baseState)
      (.byUuid "ff01") = .error "Characteristic was not found" :=
  have h := C10_no_upfront_check Nat c10op baseState rfl
  ⟨h.1, h.2.1 3, h.2.2 "ff01"⟩

/-- C4 counterexample: when `connect` pre-loads a cached MTU (here 50),
the first (and only) connected=true signal of the lifecycle — reporting
MTU 185 — latches nothing: after a successful connect the Session MTU is
still 50, the shared cache still holds 50, and no cache-MTU write was
issued.  This contradicts the claim that the MTU is latched into the
Session and the shared cache exactly on the first connected signal. -/
theorem C4_mtu_latch_counterexample :
    c4sig.connected = true ∧ c4sig.mtu = 185 ∧
    (connect_inner noDescMap noGattMap c4state false c4sig [sampleSvc]).2
      = .ok true ∧
    ((connect_inner noDescMap noGattMap c4state false c4sig [sampleSvc]).1).mtu
      = some 50 ∧
    ((connect_inner noDescMap noGattMap c4state false c4sig
        [sampleSvc]).1).cached_mtu = some 50 ∧
    Event.cacheSetMtu 185 ∉
      ((connect_inner noDescMap noGattMap c4state false c4sig
        [sampleSvc]).1).events :=
  ⟨rfl, rfl, rfl, rfl, rfl, by decide⟩

/-- C4 (amended): on a connected=true signal the MTU is latched into the
Session and the shared cache exactly when the Session's MTU is unset
(None or 0) at signal time; when a truthy MTU is already set (e.g.
pre-loaded from the cache by `connect`), the signal leaves both the
Session MTU and the cached MTU unchanged — so once the Session's MTU is
nonzero it never changes (link-drop cleanup included) until a fresh
connect reloads it from the cache. -/
theorem C4_mtu_latch_discipline (dm : Int → Option (String × String))
    (gm : Int → Option String) (s : ClientState) (fut : ConnFuture)
    (m : Nat) (e : Int) :
    (mtuFalsy s.mtu = true →
      ((on_bluetooth_connection_state dm gm s fut true m e).1).mtu = some m ∧
      ((on_bluetooth_connection_state dm gm s fut true m e).1).cached_mtu
        = some m) ∧
    (mtuFalsy s.mtu = false →
      ((on_bluetooth_connection_state dm gm s fut true m e).1).mtu = s.mtu ∧
      ((on_bluetooth_connection_state dm gm s fut true m e).1).cached_mtu
        = s.cached_mtu) ∧
    (∀ v, s.mtu = some v → v ≠ 0 →
      ((on_bluetooth_connection_state dm gm s fut true m e).1).mtu = some v) ∧
    (async_ble_device_disconnected s).mtu = s.mtu := by
  have hmtu := cb_state_mtu dm gm s fut m e
  refine ⟨?_, ?_, ?_, drop_mtu s⟩
  · intro hm
    rw [hmtu.1, hmtu.2, hm]
    exact ⟨rfl, rfl⟩
  · intro hm
    rw [hmtu.1, hmtu.2, hm]
    exact ⟨rfl, rfl⟩
  · intro v hv h0
    have hm : mtuFalsy s.mtu = false := by
      rw [hv]
      simpa [mtuFalsy] using h0
    rw [hmtu.1, hm, hv]
    rfl

/-- C4 witness: the amended theorem applied at an unset-MTU Session
(latch to 185) and at a Session whose MTU is already 185 (no change). -/
theorem C4_mtu_latch_discipline_witness :
    ((on_bluetooth_connection_state noDescMap noGattMap baseState
        .pending true 185 0).1).mtu = some 185 ∧
    ((on_bluetooth_connection_state noDescMap noGattMap baseState
        .pending true 185 0).1).cached_mtu = some 185 ∧
    ((on_bluetooth_connection_state noDescMap noGattMap c9state
        .pending true 42 0).1).mtu = c9state.mtu ∧
    ((on_bluetooth_connection_state noDescMap noGattMap c9state
        .pending true 42 0).1).mtu = some 185 :=
  have h1 := C4_mtu_latch_discipline noDescMap noGattMap baseState
    .pending 185 0
  have h2 := C4_mtu_latch_discipline noDescMap noGattMap c9state
    .pending 42 0
  ⟨(h1.1 rfl).1, (h1.1 rfl).2, (h2.2.1 rfl).1, h2.2.2.1 185 rfl (by decide)⟩

theorem disconnect_underlying_is_connected (s : ClientState) :
    ((disconnect_underlying s).1).is_connected = false :=
  cleanup_is_connected s

theorem connect_inner_unfold (dm : Int → Option (String × String))
    (gm : Int → Option String) (s : ClientState) (d : Bool) (sig : ConnSignal)
    (rpc : List EsphomeService) :
    ∃ t : ClientState, t.cached_services = s.cached_services ∧
      t.mtu = s.cached_mtu ∧
      connect_inner dm gm s d sig rpc
        = (match (on_bluetooth_connection_state dm gm t ConnFuture.pending
              sig.connected sig.mtu sig.error).2 with
           | ConnFuture.pending =>
               ((on_bluetooth_connection_state dm gm t ConnFuture.pending
                  sig.connected sig.mtu sig.error).1,
                Except.error "connect future never resolved")
           | ConnFuture.failed msg =>
               ((on_bluetooth_connection_state dm gm t ConnFuture.pending
                  sig.connected sig.mtu sig.error).1, Except.error msg)
           | ConnFuture.resolved _ =>
               match get_services (on_bluetooth_connection_state dm gm t
                   ConnFuture.pending sig.connected sig.mtu sig.error).1 d rpc with
               | (s2, Except.ok _) => (s2, Except.ok true)
               | (s2, Except.error e) =>
                   ((disconnect_underlying s2).1, Except.error e)) := by
  refine ⟨{ s with mtu := s.cached_mtu
                   cancel_connection_state := true
                   events := s.events ++ [Event.rpcConnect (connectHasCache
                     { s with mtu := s.cached_mtu } d)] }, rfl, rfl, rfl⟩

/-- C1: a service-discovery call whose RPC enumeration returns zero
services fails with the `BleakError` "Failed to get services from remote
esp" (never an empty topology as success); within `connect`, an empty
discovery result makes the connect fail and leaves the Session
disconnected; consequently every successful connect ends with a
non-empty topology. -/
theorem C1_empty_discovery_fails (dm : Int → Option (String × String))
    (gm : Int → Option String) (s : ClientState) (d : Bool)
    (sig : ConnSignal) (rpc : List EsphomeService)
    (hmiss : s.cached_services = none) :
    (get_services_inner s d []).2
      = .error "Failed to get services from remote esp" ∧
    (connect_inner dm gm s d sig []).2 ≠ Except.ok true ∧
    (sig.connected = true → sig.error = 0 →
      (connect_inner dm gm s d sig []).2
        = .error "Failed to get services from remote esp" ∧
      ((connect_inner dm gm s d sig []).1).is_connected = false) ∧
    (∀ s', connect_inner dm gm s d sig rpc = (s', Except.ok true) →
      (s'.services.getD ServiceCollection.empty).services ≠ []) := by
  refine ⟨?_, ?_, ?_, ?_⟩
  · simp [get_services_inner, hmiss]
  · obtain ⟨t, hts, htm, heq⟩ := connect_inner_unfold dm gm s d sig []
    set u := (on_bluetooth_connection_state dm gm t ConnFuture.pending
      sig.connected sig.mtu sig.error).1 with hu
    set r2 := (on_bluetooth_connection_state dm gm t ConnFuture.pending
      sig.connected sig.mtu sig.error).2 with hr2
    have hucs : u.cached_services = none := by
      rw [hu, cb_cached_services, hts, hmiss]
    intro hok
    rw [heq] at hok
    rcases hfut : r2 with _ | b | msg <;> rw [hfut] at hok
    · simp at hok
    · rcases hgs : get_services u d [] with ⟨s2, res⟩
      rw [hgs] at hok
      rcases res with err | col
      · simp at hok
      · have h2 := congrArg Prod.snd hgs
        rw [get_services_empty_err u d hucs] at h2
        simp at h2
    · simp at hok
  · obtain ⟨t, hts, htm, heq⟩ := connect_inner_unfold dm gm s d sig []
    set u := (on_bluetooth_connection_state dm gm t ConnFuture.pending
      sig.connected sig.mtu sig.error).1 with hu
    set r2 := (on_bluetooth_connection_state dm gm t ConnFuture.pending
      sig.connected sig.mtu sig.error).2 with hr2
    have hucs : u.cached_services = none := by
      rw [hu, cb_cached_services, hts, hmiss]
    intro hc he
    have hres : r2 = ConnFuture.resolved true := by
      rw [hr2, hc, he, cb_pending_success]
    rw [hres] at heq
    rcases hgs : get_services u d [] with ⟨s2, res⟩
    rw [hgs] at heq
    have h2 := congrArg Prod.snd hgs
    rw [get_services_empty_err u d hucs] at h2
    rcases res with err | col
    · simp only [Except.error.injEq] at h2
      subst h2
      rw [heq]
      exact ⟨rfl, disconnect_underlying_is_connected s2⟩
    · simp at h2
  · obtain ⟨t, hts, htm, heq⟩ := connect_inner_unfold dm gm s d sig rpc
    set u := (on_bluetooth_connection_state dm gm t ConnFuture.pending
      sig.connected sig.mtu sig.error).1 with hu
    set r2 := (on_bluetooth_connection_state dm gm t ConnFuture.pending
      sig.connected sig.mtu sig.error).2 with hr2
    have hucs : u.cached_services = none := by
      rw [hu, cb_cached_services, hts, hmiss]
    intro s' hs'
    rw [heq] at hs'
    rcases hfut : r2 with _ | b | msg <;> rw [hfut] at hs'
    · exact absurd (congrArg Prod.snd hs') (by simp)
    · rcases hgs : get_services u d rpc with ⟨s2, res⟩
      rw [hgs] at hs'
      rcases res with err | col
      · exact absurd (congrArg Prod.snd hs') (by simp)
      · have hspec := get_services_spec u s2 d rpc col hgs
        have hs2 : s' = s2 := by
          have h1 := congrArg Prod.fst hs'
          simpa using h1.symm
        rw [hs2, hspec.1]
        simpa using hspec.2 hucs
    · exact absurd (congrArg Prod.snd hs') (by simp)

/-- C1 witness: at a concrete cache-miss Session, empty discovery fails
with the exact error and leaves the Session disconnected, and a
successful connect over `sampleSvc` ends with a non-empty topology. -/
theorem C1_empty_discovery_fails_witness :
    (get_services_inner baseState false []).2
      = .error "Failed to get services from remote esp" ∧
    (connect_inner noDescMap noGattMap baseState false c1sig []).2
      = .error "Failed to get services from remote esp" ∧
    ((connect_inner noDescMap noGattMap baseState false c1sig
        []).1).is_connected = false ∧
    (((connect_inner noDescMap noGattMap baseState false c1sig
        [sampleSvc]).1).services.getD ServiceCollection.empty).services ≠ [] :=
  have h := C1_empty_discovery_fails noDescMap noGattMap baseState false c1sig
    [sampleSvc] rfl
  ⟨h.1, (h.2.2.1 rfl rfl).1, (h.2.2.1 rfl rfl).2,
    h.2.2.2 (connect_inner noDescMap noGattMap baseState false c1sig
      [sampleSvc]).1 rfl⟩
